import Mathlib

/-!
Verification of the complexity-analysis engine of the
Time_Complexity_Extension repository.

The development shallowly embeds the core estimation and arbitration code:

* `src/backend/analyzer.py` — the rule-based estimator
  (`TimeComplexityAnalyzer`, `PythonASTAnalyzer`), its per-language regex
  signature tables, pattern analysis, heuristic fallback and suggestion
  generation;
* `src/ml_integration/hybrid_analyzer.py` — the arbitration engine
  (`_combine_analyses`, `_determine_final_complexity`,
  `_guardrail_corrections`, `_composite_signals`);
* `src/ml_integration/ml_models.py` — the ensemble estimator's
  `predict_complexity` guard for the untrained state.

Modelling conventions:

* Python float confidences are modelled as exact rationals (`ℚ`); every
  constant used by the code (0.4, 0.45, 0.5, 0.55, 0.6, 0.8, …) is written
  as the corresponding rational.
* Python `re.search` on the raw-string patterns of the source is modelled
  by a Brzozowski-derivative matcher over an explicit regular-expression
  syntax; each source pattern is transcribed constructor by constructor.
* Python exceptions are modelled with `Except`; external components
  (CPython's `ast.parse`, the trained scikit-learn models) appear as
  explicit inputs (`Option AstFacts`, an opaque inference function), since
  they are outside this repository.
-/

/- Batteries marks the rational field operations `@[irreducible]`; making
them semireducible again lets concrete confidences evaluate by `decide`. -/
attribute [local semireducible] Rat.add Rat.mul Rat.sub Rat.inv

namespace TCE

/-! ## Strings: substring containment and non-overlapping counting -/

/-- Python's `needle in hay` on lists of characters. -/
def isSubList (needle hay : List Char) : Bool :=
  hay.tails.any (fun t => needle.isPrefixOf t)

/-- Python's `needle in hay` substring test on strings. -/
def isSub (needle hay : String) : Bool :=
  isSubList needle.toList hay.toList

/-- Auxiliary fuel-indexed scanner for `countS`. -/
def countOccAux : Nat → List Char → List Char → Nat
  | 0, _, _ => 0
  | _, [], _ => 0
  | fuel + 1, c :: rest, nd =>
    if nd.isPrefixOf (c :: rest) then
      1 + countOccAux fuel ((c :: rest).drop nd.length) nd
    else
      countOccAux fuel rest nd

/-- Python's `hay.count(needle)` (non-overlapping occurrence count) for a
non-empty needle. -/
def countS (hay needle : String) : Nat :=
  countOccAux hay.toList.length hay.toList needle.toList

/-! ## A small regex engine (Brzozowski derivatives)

`re.search(pattern, src)` of the source is modelled as: some substring of
`src` matches the transcribed pattern.  The subset of Python regex syntax
used by the repository needs literals, character classes (`\s`, `\w`,
`\d`, `.`, `[^)]`, `[\s\S]`, `[+\-]`), concatenation, `*` and `+`. -/

inductive RE where
  | zero : RE
  | eps : RE
  | cls (p : Char → Bool) : RE
  | seq (a b : RE) : RE
  | alt (a b : RE) : RE
  | star (a : RE) : RE

namespace RE

def nullable : RE → Bool
  | zero => false
  | eps => true
  | cls _ => false
  | seq a b => nullable a && nullable b
  | alt a b => nullable a || nullable b
  | star _ => true

/-- Smart sequencing (keeps derivatives small). -/
def seqS : RE → RE → RE
  | zero, _ => zero
  | eps, b => b
  | a, eps => a
  | a, b => seq a b

/-- Smart alternation (keeps derivatives small). -/
def altS : RE → RE → RE
  | zero, b => b
  | a, zero => a
  | a, b => alt a b

/-- Brzozowski derivative with respect to one character. -/
def deriv : RE → Char → RE
  | zero, _ => zero
  | eps, _ => zero
  | cls p, c => if p c then eps else zero
  | seq a b, c =>
    if nullable a then altS (seqS (deriv a c) b) (deriv b c)
    else seqS (deriv a c) b
  | alt a b, c => altS (deriv a c) (deriv b c)
  | star a, c => seqS (deriv a c) (star a)

/-- Does some prefix of `cs` match `r`? -/
def anyPrefix : RE → List Char → Bool
  | r, [] => nullable r
  | r, c :: cs => nullable r || anyPrefix (deriv r c) cs

/-- Length of the longest prefix of `cs` matching `r`, if any
(used only to reproduce `re.findall`'s non-overlapping scan counts). -/
def longestPrefix (r : RE) (cs : List Char) : Option Nat :=
  match cs with
  | [] => if nullable r then some 0 else none
  | c :: rest =>
    match longestPrefix (deriv r c) rest with
    | some n => some (n + 1)
    | none => if nullable r then some 0 else none

end RE

/-- Python's `re.search(r, s)`: some substring of `s` matches `r`. -/
def reSearch (r : RE) (s : String) : Bool :=
  s.toList.tails.any (fun t => RE.anyPrefix r t)

/-- Count of `re.findall(r, s)` matches: the standard non-overlapping
left-to-right scan (greedy longest match at each start position). -/
def reCountAux (r : RE) : Nat → List Char → Nat
  | 0, _ => 0
  | _, [] => if RE.nullable r then 1 else 0
  | fuel + 1, c :: rest =>
    match RE.longestPrefix r (c :: rest) with
    | some (n + 1) => 1 + reCountAux r fuel ((c :: rest).drop (n + 1))
    | some 0 => 1 + reCountAux r fuel rest
    | none => reCountAux r fuel rest

def reCount (r : RE) (s : String) : Nat :=
  reCountAux r s.toList.length s.toList

/-! ### Regex construction helpers (transcription combinators) -/

/-- Character classes used by the source patterns. -/
def wordChar (c : Char) : Bool := c.isAlphanum || c = '_'

def spaceChar (c : Char) : Bool :=
  c = ' ' || c = '\t' || c = '\n' || c = '\r' || c = '\x0b' || c = '\x0c'

def digitChar (c : Char) : Bool := c.isDigit

/-- A literal string, character by character. -/
def lit (s : String) : RE :=
  s.toList.foldr (fun c r => RE.seqS (RE.cls (fun x => x = c)) r) RE.eps

/-- Sequence a list of regexes. -/
def cat (rs : List RE) : RE := rs.foldr RE.seqS RE.eps

/-- `\s*` -/
def wsS : RE := RE.star (RE.cls spaceChar)
/-- `\s+` -/
def wsP : RE := RE.seq (RE.cls spaceChar) wsS
/-- `\w*` -/
def wdS : RE := RE.star (RE.cls wordChar)
/-- `\w+` -/
def wdP : RE := RE.seq (RE.cls wordChar) wdS
/-- `\d+` -/
def dgP : RE := RE.seq (RE.cls digitChar) (RE.star (RE.cls digitChar))
/-- `.*` without `re.DOTALL` (any characters except newline). -/
def dotS : RE := RE.star (RE.cls (fun c => c ≠ '\n'))
/-- `[\s\S]*` (any characters including newline). -/
def anyS : RE := RE.star (RE.cls (fun _ => true))
/-- `[^)]*` -/
def notRParenS : RE := RE.star (RE.cls (fun c => c ≠ ')'))

/-- Python `x in l` membership on a list of strings. -/
def memS (s : String) (l : List String) : Bool := l.any (fun x => x == s)

/-! ## Rule-based estimator (`src/backend/analyzer.py`) -/

/-- `ComplexityPattern` dataclass. -/
structure ComplexityPattern where
  pattern : RE
  time_complexity : String
  space_complexity : String
  description : String
  confidence : ℚ

/-- Supported languages; `other` covers any language string without a
registered pattern table (`getattr(self, f"{language}_patterns", [])`). -/
inductive Lang where
  | python | cpp | java | javascript | other
deriving DecidableEq

/-- `_init_python_patterns`. -/
def pythonPatterns : List ComplexityPattern := [
  ⟨cat [lit "for", wsP, wdP, wsP, lit "in", wsP, lit "range", wsS, lit "(", wsS, wdP, wsS, lit ")"],
   "O(n)", "O(1)", "Single loop with range", 9/10⟩,
  ⟨cat [lit "for", wsP, wdP, wsP, lit "in", wsP, wdP],
   "O(n)", "O(1)", "Single loop over iterable", 8/10⟩,
  ⟨cat [lit "for", wsP, wdP, wsP, lit "in", wsP, lit "range", wsS, lit "(", wsS, wdP, wsS, lit ")", lit ":", wsS, lit "\n", wsS,
        lit "for", wsP, wdP, wsP, lit "in", wsP, lit "range", wsS, lit "(", wsS, wdP, wsS, lit ")"],
   "O(n²)", "O(1)", "Nested loops", 95/100⟩,
  ⟨cat [lit "def", wsP, wdP, wsS, lit "(", notRParenS, lit ")", lit ":", wsS, lit "\n", wsS,
        lit "return", wsP, wdP, wsS, lit "(", wsS, wdP, wsS, lit "-", wsS, lit "1", wsS, lit ")", wsS,
        lit "+", wsS, wdP, wsS, lit "(", wsS, wdP, wsS, lit "-", wsS, lit "2", wsS, lit ")"],
   "O(2ⁿ)", "O(n)", "Fibonacci-like recursion", 9/10⟩,
  ⟨cat [lit ".sort", wsS, lit "(", wsS, lit ")"],
   "O(n log n)", "O(1)", "Built-in sort", 95/100⟩,
  ⟨cat [lit "while", wsP, lit "left", wsS, lit "<=", wsS, lit "right"],
   "O(log n)", "O(1)", "Binary search pattern", 9/10⟩,
  ⟨cat [lit "mid", wsS, lit "=", wsS, lit "(left", wsS, lit "+", wsS, lit "right)", wsS, lit "//", wsS, lit "2"],
   "O(log n)", "O(1)", "Binary search midpoint calculation", 8/10⟩,
  ⟨cat [lit ".append", wsS, lit "(", wsS, wdP, wsS, lit ")"],
   "O(1)", "O(1)", "List append", 9/10⟩,
  ⟨cat [lit "in", wsP, wdP],
   "O(n)", "O(1)", "Membership test in list", 8/10⟩,
  ⟨cat [lit "in", wsP, lit "set", wsS, lit "(", wsS, wdP, wsS, lit ")"],
   "O(1)", "O(n)", "Membership test in set", 9/10⟩]

/-- The C-style `for (int i = 0; i < n; i++)` loop header regex. -/
def cppForHeader : RE :=
  cat [lit "for", wsS, lit "(", wsS, lit "int", wsP, wdP, wsS, lit "=", wsS, dgP, wsS, lit ";", wsS,
       wdP, wsS, lit "<", wsS, wdP, wsS, lit ";", wsS, wdP, lit "++)"]

/-- `_init_cpp_patterns`. -/
def cppPatterns : List ComplexityPattern := [
  ⟨cppForHeader, "O(n)", "O(1)", "Single for loop", 9/10⟩,
  ⟨cat [cppForHeader, wsS, lit "\x7b", wsS, cppForHeader],
   "O(n²)", "O(1)", "Nested for loops", 95/100⟩,
  ⟨cat [lit "while", wsS, lit "(", wsS, wdP, wsS, lit "!=", wsS, lit "nullptr", wsS, lit ")"],
   "O(n)", "O(1)", "Linked list traversal", 9/10⟩,
  ⟨cat [lit "while", wsS, lit "(", wsS, wdP, wsS, lit "!=", wsS, lit "nullptr", wsS, lit "||", wsS,
        wdP, wsS, lit "!=", wsS, lit "nullptr", wsS, lit "||", wsS, wdP, wsS, lit ">", wsS, lit "0", wsS, lit ")"],
   "O(n)", "O(1)", "Linked list traversal with carry", 9/10⟩,
  ⟨cat [lit "sort", wsS, lit "(", wsS, wdP, lit ".begin", wsS, lit "(", wsS, lit ")", wsS, lit ",", wsS,
        wdP, lit ".end", wsS, lit "(", wsS, lit ")", wsS, lit ")"],
   "O(n log n)", "O(1)", "STL sort", 95/100⟩,
  ⟨cat [lit "vector", wsS, lit "<", wsS, wdP, wsS, lit ">", wsP, wdP],
   "O(1)", "O(n)", "Vector declaration", 8/10⟩,
  ⟨cat [lit "ListNode*", wsP, wdP],
   "O(1)", "O(1)", "ListNode pointer declaration", 8/10⟩,
  ⟨cat [lit "new", wsP, lit "ListNode"],
   "O(1)", "O(1)", "ListNode allocation", 8/10⟩,
  ⟨cat [lit "->", wsS, lit "val"],
   "O(1)", "O(1)", "Linked list value access", 9/10⟩,
  ⟨cat [lit "->", wsS, lit "next"],
   "O(1)", "O(1)", "Linked list next pointer access", 9/10⟩]

/-- `_init_java_patterns`. -/
def javaPatterns : List ComplexityPattern := [
  ⟨cat [lit "for", wsS, lit "(", wsS, wdP, wsP, wdP, wsS, lit ":", wsS, wdP, wsS, lit ")"],
   "O(n)", "O(1)", "Enhanced for loop", 9/10⟩,
  ⟨cat [lit "for", wsS, lit "(", wsS, lit "int", wsP, wdP, wsS, lit "=", wsS, dgP, wsS, lit ";", wsS,
        wdP, wsS, lit "<", wsS, wdP, lit ".length", wsS, lit ";", wsS, wdP, lit "++)"],
   "O(n)", "O(1)", "Array iteration", 9/10⟩,
  ⟨cat [lit "Arrays.sort", wsS, lit "(", wsS, wdP, wsS, lit ")"],
   "O(n log n)", "O(1)", "Arrays.sort", 95/100⟩,
  ⟨cat [lit "ArrayList", wsS, lit "<", wsS, wdP, wsS, lit ">", wsP, wdP],
   "O(1)", "O(n)", "ArrayList declaration", 8/10⟩]

/-- `_init_javascript_patterns`. -/
def javascriptPatterns : List ComplexityPattern := [
  ⟨cat [lit "for", wsS, lit "(", wsS, lit "let", wsP, wdP, wsS, lit "=", wsS, dgP, wsS, lit ";", wsS,
        wdP, wsS, lit "<", wsS, wdP, lit ".length", wsS, lit ";", wsS, wdP, lit "++)"],
   "O(n)", "O(1)", "Array iteration", 9/10⟩,
  ⟨cat [lit "for", wsS, lit "(", wsS, lit "const", wsP, wdP, wsP, lit "of", wsP, wdP, wsS, lit ")"],
   "O(n)", "O(1)", "For...of loop", 9/10⟩,
  ⟨cat [lit ".sort", wsS, lit "(", wsS, lit "(", wsS, wdP, wsS, lit ",", wsS, wdP, wsS, lit ")", wsS, lit "=>"],
   "O(n log n)", "O(1)", "Array sort with comparator", 95/100⟩,
  ⟨cat [lit ".push", wsS, lit "(", wsS, wdP, wsS, lit ")"],
   "O(1)", "O(1)", "Array push", 9/10⟩]

/-- `getattr(self, f"{language}_patterns", [])`. -/
def patternsFor : Lang → List ComplexityPattern
  | .python => pythonPatterns
  | .cpp => cppPatterns
  | .java => javaPatterns
  | .javascript => javascriptPatterns
  | .other => []

/-- Result dictionary shared by `_analyze_*` helpers. -/
structure AnalysisOut where
  time_complexity : String
  space_complexity : String
  breakdown : List String
  confidence : ℚ
deriving DecidableEq

def unknownOut : AnalysisOut := ⟨"Unknown", "Unknown", [], 0⟩

/-- The `if`/`elif` chain of `_determine_time_complexity` that classifies a
matched pattern's time label (substring tests, in source order). -/
def mapTimeClass (t : String) : Option String :=
  if isSub "O(2ⁿ)" t then some "O(2ⁿ)"
  else if isSub "O(n²)" t then some "O(n²)"
  else if isSub "O(n log n)" t then some "O(n log n)"
  else if isSub "O(log n)" t then some "O(log n)"
  else if isSub "O(n)" t then some "O(n)"
  else if isSub "O(1)" t then some "O(1)"
  else none

/-- `_determine_time_complexity`: collect the classes of the matched
patterns, then return the highest by the fixed priority order. -/
def determineTimeComplexity (results : List ComplexityPattern) : String :=
  let complexities := results.filterMap (fun r => mapTimeClass r.time_complexity)
  if complexities.isEmpty then "Unknown"
  else if memS "O(2ⁿ)" complexities then "O(2ⁿ)"
  else if memS "O(n²)" complexities then "O(n²)"
  else if memS "O(n log n)" complexities then "O(n log n)"
  else if memS "O(log n)" complexities then "O(log n)"
  else if memS "O(n)" complexities then "O(n)"
  else "O(1)"

/-- `_determine_space_complexity`. -/
def determineSpaceComplexity (results : List ComplexityPattern) : String :=
  if results.any (fun r => isSub "O(n)" r.space_complexity) then "O(n)" else "O(1)"

/-- `_analyze_patterns`. -/
def analyzePatterns (code : String) (ps : List ComplexityPattern) : AnalysisOut :=
  let results := ps.filter (fun p => reSearch p.pattern code)
  let maxConf := results.foldl (fun a p => max a p.confidence) 0
  if results.isEmpty then unknownOut
  else
    { time_complexity := determineTimeComplexity results
      space_complexity := determineSpaceComplexity results
      breakdown := results.map (fun p =>
        "Found " ++ toString (reCount p.pattern code) ++ " instances of " ++ p.description)
      confidence := maxConf }

/-- The three counters accumulated by `PythonASTAnalyzer`'s tree walk
(the walk itself runs over CPython's `ast` tree, an external component;
its result is these counts). -/
structure AstFacts where
  loops : Nat
  nested_loops : Nat
  recursive_calls : Nat
deriving DecidableEq

/-- `PythonASTAnalyzer.get_results`. -/
def getResults (f : AstFacts) : AnalysisOut :=
  let conf : ℚ := min (9/10) (3/10 + (f.loops : ℚ) * (1/10) + (f.recursive_calls : ℚ) * (2/10))
  if 0 < f.recursive_calls then
    ⟨"O(2ⁿ)", "O(n)", ["Found " ++ toString f.recursive_calls ++ " recursive calls"], conf⟩
  else if 0 < f.nested_loops then
    ⟨"O(n²)", "O(1)", ["Found " ++ toString f.nested_loops ++ " nested loops"], conf⟩
  else if 0 < f.loops then
    ⟨"O(n)", "O(1)", ["Found " ++ toString f.loops ++ " loops"], conf⟩
  else
    ⟨"O(1)", "O(1)", ["No loops or recursion detected"], conf⟩

/-- `_combine_analysis`: prefer the AST result when strictly more
confident. -/
def combineAnalysis (astRes patRes : AnalysisOut) : AnalysisOut :=
  if astRes.confidence > patRes.confidence then astRes else patRes

/-! ### `_fallback_analysis` -/

/-- Python's `code.split('\n')`. -/
def splitNL (cs : List Char) : List (List Char) :=
  cs.foldr
    (fun c acc =>
      if c = '\n' then [] :: acc
      else match acc with
        | h :: t => (c :: h) :: t
        | [] => [[c]])
    [[]]

/-- Python's `line.strip()` (both-ends whitespace removal). -/
def pyStrip (cs : List Char) : List Char :=
  ((cs.dropWhile spaceChar).reverse.dropWhile spaceChar).reverse

/-- `needle in line` for a line kept as a character list. -/
def isSubL (needle : String) (hay : List Char) : Bool :=
  isSubList needle.toList hay

/-- `line.strip().startswith(('for', 'while'))`. -/
def lineStartsLoop (l : List Char) : Bool :=
  "for".toList.isPrefixOf (pyStrip l) || "while".toList.isPrefixOf (pyStrip l)

/-- `has_recursion` heuristic of `_fallback_analysis`. -/
def fallbackHasRecursion (code : String) : Bool :=
  let lines := splitNL code.toList
  decide (0 < countS code "def") && decide (0 < countS code "return") &&
    lines.any (fun l => isSubL "return" l && isSubL "(" l && isSubL ")" l)

/-- `has_nested_loops` heuristic of `_fallback_analysis` (note the
source's `lines.index(line)` finds the first occurrence of the line). -/
def fallbackHasNestedLoops (code : String) : Bool :=
  let lines := splitNL code.toList
  (decide (1 < countS code "for") || decide (1 < countS code "while")) &&
    lines.any (fun l =>
      lineStartsLoop l &&
        (lines.take (lines.findIdx (fun x => x == l))).any
          (fun prev => isSubL "for" prev || isSubL "while" prev))

/-- `has_arrays` (over `code.lower()`). -/
def fallbackHasArrays (lower : List Char) : Bool :=
  ["array", "list", "vector", "[]"].any (fun w => isSubL w lower)

/-- `has_maps`. -/
def fallbackHasMaps (lower : List Char) : Bool :=
  ["map", "dict", "hash", "\x7b\x7d"].any (fun w => isSubL w lower)

/-- `has_sets`. -/
def fallbackHasSets (lower : List Char) : Bool :=
  ["set", "hashset"].any (fun w => isSubL w lower)

/-- The data-structure disjunction guarding the `O(1)/O(n)` branch. -/
def fallbackHasDataStructures (code : String) : Bool :=
  let lower := code.toList.map Char.toLower
  fallbackHasArrays lower || fallbackHasMaps lower || fallbackHasSets lower

/-- `_fallback_analysis` (its `language` argument is unused in the
source as well). -/
def fallbackAnalysis (code : String) (_lang : Lang) : AnalysisOut :=
  let forC := countS code "for"
  let whileC := countS code "while"
  let defC := countS code "def"
  let cppClassC := countS code "class "
  let cppPublicC := countS code "public:"
  let cppPointerC := countS code "*"
  let cppArrowC := countS code "->"
  let cppNullptrC := countS code "nullptr"
  let cppNewC := countS code "new "
  let hasLoops := decide (0 < forC) || decide (0 < whileC)
  let isCpp :=
    (decide (0 < cppClassC) && decide (0 < cppPublicC)) ||
    (decide (0 < cppPointerC) && decide (0 < cppArrowC)) ||
    decide (0 < cppNullptrC) || decide (0 < cppNewC)
  let base : String × String × List String :=
    if fallbackHasRecursion code then
      ("O(2ⁿ)", "O(n)", ["Detected " ++ toString defC ++ " recursive function calls"])
    else if fallbackHasNestedLoops code then
      ("O(n²)", "O(1)", ["Detected " ++ toString (forC + whileC) ++ " nested loops"])
    else if hasLoops then
      ("O(n)", "O(1)", ["Detected " ++ toString (forC + whileC) ++ " loops"])
    else if fallbackHasDataStructures code then
      ("O(1)", "O(n)", ["Detected data structures"])
    else
      ("O(1)", "O(1)", ["No loops or data structures detected"])
  let breakdown := base.2.2 ++
    (if 0 < forC then ["Found " ++ toString forC ++ " for loops"] else []) ++
    (if 0 < whileC then ["Found " ++ toString whileC ++ " while loops"] else []) ++
    (if 0 < defC then ["Found " ++ toString defC ++ " function definitions"] else []) ++
    (if isCpp then
      (if 0 < cppClassC then ["Found " ++ toString cppClassC ++ " C++ class definitions"] else []) ++
      (if 0 < cppPointerC then ["Found " ++ toString cppPointerC ++ " pointer operations"] else []) ++
      (if 0 < cppNullptrC then ["Found " ++ toString cppNullptrC ++ " nullptr checks"] else []) ++
      (if 0 < cppNewC then ["Found " ++ toString cppNewC ++ " dynamic allocations"] else [])
     else [])
  ⟨base.1, base.2.1, breakdown, 2/5⟩

/-- `_generate_suggestions`. -/
def generateSuggestions (result : AnalysisOut) (code : String) (lang : Lang) : List String :=
  let t := result.time_complexity
  (if isSub "O(2ⁿ)" t then
    ["Consider using dynamic programming or memoization to reduce complexity from O(2ⁿ) to O(n)",
     "Look for overlapping subproblems that can be cached"] else []) ++
  (if isSub "O(n²)" t then
    ["Consider using a hash map/set for O(1) lookups instead of nested loops",
     "If sorting is acceptable, sort first and use binary search for O(n log n)"] else []) ++
  (if isSub "O(n log n)" t then
    ["This is already quite efficient. Consider if O(n) is possible with a single pass"] else []) ++
  (if isSub "O(log n)" t then
    ["This is very efficient! Consider if O(1) is possible with hash tables or precomputation"] else []) ++
  (if isSub "O(n)" t then
    ["Consider if O(log n) is possible with binary search or divide-and-conquer"] else []) ++
  (if isSub "O(1)" t then
    ["This is optimal time complexity. Focus on space optimization if needed"] else []) ++
  (if isSub "Unknown" t || result.confidence < 1/2 then
    ["Unable to determine complexity. Consider adding comments to clarify algorithm logic",
     "Try simplifying the code structure for better analysis",
     "Check if the code contains complex nested structures or recursion"] else []) ++
  (match lang with
   | .python =>
     (if isSub "in " code && !isSub "set(" code then
       ["Consider converting list to set for O(1) membership testing"] else []) ++
     (if isSub ".append(" code && !isSub "list comprehension" code then
       ["Consider using list comprehension for better readability and performance"] else []) ++
     (if isSub "range(" code && isSub "len(" code then
       ["Consider using enumerate() for cleaner iteration with indices"] else [])
   | .cpp =>
     (if isSub "for(" code && isSub "vector" code then
       ["Consider using range-based for loops for cleaner syntax"] else []) ++
     (if isSub "sort(" code then
       ["Consider using std::sort for O(n log n) sorting"] else [])
   | .java =>
     (if isSub "for(" code && isSub "length" code then
       ["Consider using enhanced for loops for cleaner iteration"] else []) ++
     (if isSub "Arrays.sort" code then
       ["Consider using Collections.sort for objects"] else [])
   | .javascript =>
     (if isSub "for(" code && isSub "length" code then
       ["Consider using for...of or forEach for cleaner iteration"] else []) ++
     (if isSub ".sort(" code then
       ["Consider providing a comparator function for custom sorting"] else [])
   | .other => [])

/-- The externally visible result dictionary of
`TimeComplexityAnalyzer.analyze`. -/
structure Verdict where
  time_complexity : String
  space_complexity : String
  breakdown : List String
  suggestions : List String
  confidence : ℚ
deriving DecidableEq

/-- `TimeComplexityAnalyzer.analyze`.  CPython's `ast.parse` is external:
its outcome is the `parse` argument (`none` = `SyntaxError`, used only for
`language == "python"`).  Nothing in the embedding raises, so the
source's outer `try/except` fallback branch is unreachable here. -/
def backendAnalyze (lang : Lang) (parse : Option AstFacts) (code : String) : Verdict :=
  let ps := patternsFor lang
  let astRes : AnalysisOut :=
    match lang with
    | .python => (match parse with | some f => getResults f | none => unknownOut)
    | _ => analyzePatterns code ps
  let patRes := analyzePatterns code ps
  let combined := combineAnalysis astRes patRes
  let result :=
    if combined.time_complexity = "Unknown" then
      let fb := fallbackAnalysis code lang
      if fb.confidence > combined.confidence then fb else combined
    else combined
  ⟨result.time_complexity, result.space_complexity, result.breakdown,
   generateSuggestions result code lang, result.confidence⟩

/-! ## Arbitration engine (`src/ml_integration/hybrid_analyzer.py`) -/

/-- The ensemble estimate dictionary produced by
`TimeComplexityMLAnalyzer.predict_complexity` as consumed by
`_combine_analyses` (`model_agreement` is its two per-class vote tables,
kept as association lists in insertion order). -/
structure MLRes where
  time_complexity : String
  space_complexity : String
  time_confidence : ℚ
  space_confidence : ℚ
  time_predictions : List (String × Nat)
  space_predictions : List (String × Nat)
deriving DecidableEq

/-- The composite boolean flags computed by
`HybridTimeComplexityAnalyzer._composite_signals`. -/
structure CompFlags where
  binary_search : Bool
  merge_sort : Bool
  dp_triply_nested : Bool
  bubble_triangular : Bool
  dp_2d_table : Bool
  permutations : Bool
  balanced_tree_loop : Bool
  linear_scan : Bool
  exp_recursive : Bool
  dp_1d_array : Bool
  triple_nested_loops : Bool
deriving DecidableEq

/-- All flags false (the dictionary's initial state). -/
def noFlags : CompFlags :=
  ⟨false, false, false, false, false, false, false, false, false, false, false⟩

/-- Only the binary-search flag set. -/
def bsOnlyFlags : CompFlags :=
  { noFlags with binary_search := true }

/-- `_guardrail_corrections`: sequential per-flag overrides, `s = s or v`
keeping an earlier space override. -/
def guardrailCorrections (comp : CompFlags) : Option String × Option String :=
  let t : Option String := none
  let s : Option String := none
  let t := if comp.binary_search then some "O(log n)" else t
  let s := if comp.binary_search then (if s.isSome then s else some "O(1)") else s
  let t := if comp.merge_sort then some "O(n log n)" else t
  let s := if comp.merge_sort then some "O(n)" else s
  let t := if comp.dp_triply_nested then some "O(n³)" else t
  let s := if comp.dp_triply_nested then (if s.isSome then s else some "O(n²)") else s
  let t := if comp.bubble_triangular then some "O(n²)" else t
  let s := if comp.bubble_triangular then (if s.isSome then s else some "O(1)") else s
  let s := if comp.dp_2d_table then some "O(n²)" else s
  let t := if comp.permutations then some "O(n!)" else t
  let s := if comp.permutations then (if s.isSome then s else some "O(n)") else s
  let t := if comp.balanced_tree_loop then some "O(n log n)" else t
  let s := if comp.balanced_tree_loop then (if s.isSome then s else some "O(n)") else s
  let t := if comp.linear_scan then some "O(n)" else t
  let s := if comp.linear_scan then (if s.isSome then s else some "O(1)") else s
  let t := if comp.exp_recursive then some "O(2ⁿ)" else t
  let s := if comp.exp_recursive then some "O(n)" else s
  let t := if comp.dp_1d_array then some "O(n)" else t
  let s := if comp.dp_1d_array then some "O(n)" else s
  let t := if comp.triple_nested_loops then some "O(n³)" else t
  let s := if comp.triple_nested_loops then (if s.isSome then s else some "O(1)") else s
  (t, s)

/-- An intermediate arbitration verdict (the 4-tuple returned by
`_determine_final_complexity`). -/
structure Arb where
  time : String
  space : String
  method : String
  confidence : ℚ
deriving DecidableEq

/-- `_determine_final_complexity` (ML-first policy). -/
def determineFinalComplexity (rule_time rule_space : String) (rule_conf : ℚ)
    (ml_time ml_space : String) (ml_time_conf ml_space_conf : ℚ) : Arb :=
  let ml_avg := (ml_time_conf + ml_space_conf) / 2
  if ml_avg ≥ 4/5 then
    ⟨ml_time, ml_space, "ml_high_confidence", ml_avg⟩
  else if ml_avg < 9/20 ∧ rule_conf ≥ 3/5 then
    ⟨rule_time, rule_space, "rule_based_fallback", rule_conf⟩
  else if ml_avg < 9/20 ∧ rule_conf < 3/5 then
    ⟨"Unknown", "Unknown", "uncertain", 2/5⟩
  else
    ⟨ml_time, ml_space, "ml_higher_confidence", ml_avg⟩

/-- Python's `max(d.items(), key=lambda x: x[1])` over an association
list in insertion order (first maximum wins). -/
def maxByCount (l : List (String × Nat)) : Option (String × Nat) :=
  l.foldl
    (fun acc p =>
      match acc with
      | none => some p
      | some q => if q.2 < p.2 then some p else some q)
    none

/-- `_combine_breakdowns` (the `model_agreement` dictionary produced by
`predict_complexity` always carries both vote tables, so its truthiness
test in the source always passes on an ML result). -/
def combineBreakdowns (rule_breakdown : List String) (ml : MLRes) : List String :=
  rule_breakdown ++
  (if 1 < ml.time_predictions.length then
    ["ML models show " ++ toString ml.time_predictions.length ++
     " different time complexity predictions"] else []) ++
  (if 1 < ml.space_predictions.length then
    ["ML models show " ++ toString ml.space_predictions.length ++
     " different space complexity predictions"] else []) ++
  (match maxByCount ml.time_predictions with
   | some p => ["ML most confident time complexity: " ++ p.1 ++ " (" ++ toString p.2 ++ " models)"]
   | none => []) ++
  (match maxByCount ml.space_predictions with
   | some p => ["ML most confident space complexity: " ++ p.1 ++ " (" ++ toString p.2 ++ " models)"]
   | none => [])

/-- `_combine_suggestions` (its `final_space` argument is unused in the
source as well). -/
def combineSuggestions (rule_suggestions : List String) (ml : MLRes)
    (final_time _final_space : String) : List String :=
  rule_suggestions ++
  (if ml.time_confidence < 7/10 then
    ["ML models show low confidence in time complexity prediction",
     "Consider providing more context or simplifying the algorithm"] else []) ++
  (if ml.space_confidence < 7/10 then
    ["ML models show low confidence in space complexity prediction",
     "Check for complex data structure usage patterns"] else []) ++
  (if 2 < ml.time_predictions.length then
    ["Multiple ML models disagree on time complexity",
     "This suggests the algorithm has complex or ambiguous patterns",
     "Consider breaking down the algorithm into smaller functions"] else []) ++
  (if final_time = "Unknown" then
    ["Both rule-based and ML analysis are uncertain",
     "Consider adding algorithm comments or using a simpler approach"] else [])

/-- The result dictionary of `_combine_analyses`.  The `confidence` key is
present only in the no-ML branch (spread of the rule result);
`rule_based_confidence` only in the ML branch; both are `Option`s.
(The nested `rule_based_result`/`ml_result` echoes are the arguments
themselves and are not duplicated here.) -/
structure HybridResult where
  time_complexity : String
  space_complexity : String
  breakdown : List String
  suggestions : List String
  analysis_method : String
  confidence : Option ℚ
  rule_based_confidence : Option ℚ
  ml_confidence : ℚ
  ensemble_confidence : ℚ
deriving DecidableEq

/-- The `if not ml_result:` branch of `_combine_analyses`: return the
rule-based result, after checking guardrail corrections. -/
def combineNoML (rule : Verdict) (composite : CompFlags) : HybridResult :=
  let c := guardrailCorrections composite
  let corrected := c.1.isSome || c.2.isSome
  { time_complexity := c.1.getD rule.time_complexity
    space_complexity := c.2.getD rule.space_complexity
    breakdown := rule.breakdown
    suggestions := rule.suggestions
    analysis_method := if corrected then "rule_plus_guardrail" else "rule_based"
    confidence := some rule.confidence
    rule_based_confidence := none
    ml_confidence := 0
    ensemble_confidence := max rule.confidence (if corrected then 11/20 else 0) }

/-- The ML branch of `_combine_analyses`: optional strict-mode confidence
nudges, `_determine_final_complexity`, the soft guardrail when the chosen
confidence is below 0.5, and the strict-mode hard guardrail. -/
def combineCore (rule : Verdict) (ml : MLRes) (composite : CompFlags)
    (strict : Bool) : HybridResult :=
  let ml_time := ml.time_complexity
  let ml_space := ml.space_complexity
  let ml_time_confidence :=
    if strict then
      let t1 := if composite.binary_search && (ml_time == "O(log n)" || ml_time == "O(log n)")
        then min 1 (ml.time_confidence + 1/10) else ml.time_confidence
      let t2 := if composite.merge_sort && (ml_time == "O(n log n)" || ml_time == "O(n log n)")
        then min 1 (t1 + 1/10) else t1
      let t3 := if composite.dp_triply_nested &&
          (ml_time == "O(n³)" || ml_time == "O(n^3)" || ml_time == "O(n3)")
        then min 1 (t2 + 12/100) else t2
      let t4 := if composite.bubble_triangular && (ml_time == "O(n²)" || ml_time == "O(n^2)")
        then min 1 (t3 + 8/100) else t3
      t4
    else ml.time_confidence
  let ml_space_confidence := ml.space_confidence
  let arb := determineFinalComplexity rule.time_complexity rule.space_complexity
    rule.confidence ml_time ml_space ml_time_confidence ml_space_confidence
  let step1 :=
    if arb.confidence < 1/2 then
      let c := guardrailCorrections composite
      if c.1.isSome || c.2.isSome then
        { time := c.1.getD arb.time, space := c.2.getD arb.space,
          method := "guardrail_cpp", confidence := max arb.confidence (11/20) : Arb }
      else arb
    else arb
  let step2 :=
    if strict then
      let c := guardrailCorrections composite
      let s1 := match c.1 with
        | some ht =>
          if ht ≠ step1.time then
            { step1 with time := ht, method := "guardrail_enforced",
                         confidence := max step1.confidence (3/5) }
          else step1
        | none => step1
      match c.2 with
      | some hs =>
        if hs ≠ s1.space then
          { s1 with space := hs, method := "guardrail_enforced",
                    confidence := max s1.confidence (3/5) }
        else s1
      | none => s1
    else step1
  { time_complexity := step2.time
    space_complexity := step2.space
    breakdown := combineBreakdowns rule.breakdown ml
    suggestions := combineSuggestions rule.suggestions ml step2.time step2.space
    analysis_method := step2.method
    confidence := none
    rule_based_confidence := some rule.confidence
    ml_confidence := (ml_time_confidence + ml_space_confidence) / 2
    ensemble_confidence := step2.confidence }

/-! ### `_composite_signals` (generic branch)

The `else` branch of `HybridTimeComplexityAnalyzer._composite_signals`,
used for every language other than `cpp`/`java` ("lightweight generic
cues for Python/JS").  The flags that the branch never assigns stay at
their initialised `false`. -/

/-- `dp\s*\[\s*\w+\s*\]\s*\[\s*\w+\s*\]` -/
def reDp2dGeneric : RE :=
  cat [lit "dp", wsS, lit "[", wsS, wdP, wsS, lit "]", wsS, lit "[", wsS, wdP, wsS, lit "]"]

/-- `for j in range\(.*n.*-.*i.*-.*1\)` -/
def reBubbleGeneric : RE :=
  cat [lit "for j in range(", dotS, lit "n", dotS, lit "-", dotS, lit "i", dotS, lit "-", dotS, lit "1", lit ")"]

/-- `for\s+\w+\s+in\s+range\(.*\):` -/
def reForRangeHeader : RE :=
  cat [lit "for", wsP, wdP, wsP, lit "in", wsP, lit "range(", dotS, lit "):"]

/-- Three `for ... in range(...):` headers separated by `[\s\S]*`. -/
def reTripleGeneric : RE :=
  cat [reForRangeHeader, anyS, reForRangeHeader, anyS, reForRangeHeader]

/-- The generic branch of `HybridTimeComplexityAnalyzer._composite_signals`
(the `swap\(` and `backtrack\(` regexes are plain literals). -/
def compositeSignalsGeneric (code : String) : CompFlags :=
  { noFlags with
    binary_search := isSub "while left <= right" code && isSub "mid" code
    merge_sort :=
      (isSub "def merge" code && isSub "while i <" code && isSub "while j <" code) ||
        isSub "merge_sort" code
    dp_2d_table := reSearch reDp2dGeneric code
    bubble_triangular := reSearch reBubbleGeneric code
    permutations := reSearch (lit "swap(") code && reSearch (lit "backtrack(") code
    triple_nested_loops := reSearch reTripleGeneric code }

/-! ## Ensemble estimator guard (`src/ml_integration/ml_models.py`) -/

/-- The ensemble estimator's state: the `is_trained` flag plus the trained
scikit-learn model bank, which is external to this repository and appears
as an opaque inference function. -/
structure MLState where
  is_trained : Bool
  infer : String → Lang → MLRes

/-- `TimeComplexityMLAnalyzer.predict_complexity`, up to its untrained
guard: `if not self.is_trained: raise ValueError(...)`; otherwise the
trained models produce the estimate. -/
def predictComplexity (st : MLState) (code : String) (lang : Lang) : Except String MLRes :=
  if !st.is_trained then
    Except.error "Models not trained. Call train_models() first."
  else
    Except.ok (st.infer code lang)

/-- `HybridTimeComplexityAnalyzer.analyze`'s ML dispatch combined with
`_combine_analyses`: `predict_complexity` is called only when
`ml_enabled`, any exception it raises is caught (`ml_result` stays
`None`), and the two estimates plus the composite flags are arbitrated.
The flags are passed explicitly (spec §4.4: arbitration is a pure
function of the two estimates and the composite flags). -/
def hybridCombine (st : MLState) (mlEnabled : Bool) (rule : Verdict)
    (composite : CompFlags) (code : String) (lang : Lang) (strict : Bool) : HybridResult :=
  let mlResult : Option MLRes :=
    if mlEnabled then
      match predictComplexity st code lang with
      | Except.ok r => some r
      | Except.error _ => none
    else none
  match mlResult with
  | none => combineNoML rule composite
  | some m => combineCore rule m composite strict

/-! ## Spec-side definitions -/

/-- Modelled from the spec's §4.4 arbitration policy (branches 2-5), with
the final tag amended from `ml_moderate_confidence` to the code's
`ml_higher_confidence`: ≥ 0.8 adopts the ensemble (`ml_high_confidence`);
ensemble < 0.45 with rule ≥ 0.6 adopts the rule estimate
(`rule_based_fallback`); both low yields Unknown at 0.4 (`uncertain`);
otherwise the ensemble is adopted. -/
def specArbitration (rule_time rule_space : String) (rule_conf : ℚ)
    (ml_time ml_space : String) (ml_time_conf ml_space_conf : ℚ) : Arb :=
  let ensembleConf := (ml_time_conf + ml_space_conf) / 2
  if 4/5 ≤ ensembleConf then
    ⟨ml_time, ml_space, "ml_high_confidence", ensembleConf⟩
  else if ensembleConf < 9/20 ∧ 3/5 ≤ rule_conf then
    ⟨rule_time, rule_space, "rule_based_fallback", rule_conf⟩
  else if ensembleConf < 9/20 ∧ rule_conf < 3/5 then
    ⟨"Unknown", "Unknown", "uncertain", 2/5⟩
  else
    ⟨ml_time, ml_space, "ml_higher_confidence", ensembleConf⟩

/-- Does an evidence entry record a parse failure / degradation?  (Used to
express the spec's "recorded in evidence, never silently dropped".) -/
def mentionsDegradation (s : String) : Bool :=
  let l := s.toList.map Char.toLower
  ["pars", "fallback", "fail", "degrad", "invalid", "error", "syntax",
   "unable", "malform"].any (fun k => isSubList k.toList l)

/-! ## Claim C1: arbitration branch order and tags -/

/-- C1 (amended): `_determine_final_complexity` follows the spec's branch
order — ensemble average ≥ 0.8 adopts the ensemble tagged
`ml_high_confidence`; average < 0.45 with rule confidence ≥ 0.6 adopts the
rule estimate tagged `rule_based_fallback`; both low yields
`Unknown`/`Unknown` at exactly 0.4 tagged `uncertain` — but the remaining
branch is tagged `ml_higher_confidence`, never the
`ml_moderate_confidence` the claim states. -/
theorem claim_C1 (rt rs : String) (rc : ℚ) (mt ms : String) (mtc msc : ℚ) :
    determineFinalComplexity rt rs rc mt ms mtc msc =
      specArbitration rt rs rc mt ms mtc msc ∧
    (determineFinalComplexity rt rs rc mt ms mtc msc).method ≠
      "ml_moderate_confidence" := by
  constructor
  · rfl
  · unfold determineFinalComplexity
    dsimp only
    split_ifs <;> simp

/-- C1 counterexample: with ensemble average 0.6 (the "otherwise" branch)
the method tag is `ml_higher_confidence`, not the claimed
`ml_moderate_confidence`. -/
theorem claim_C1_cex :
    (determineFinalComplexity "O(n²)" "O(1)" (7/10) "O(n)" "O(1)" (3/5) (3/5)).method =
      "ml_higher_confidence" ∧
    (determineFinalComplexity "O(n²)" "O(1)" (7/10) "O(n)" "O(1)" (3/5) (3/5)).method ≠
      "ml_moderate_confidence" ∧
    ¬((3/5 + 3/5 : ℚ) / 2 ≥ 4/5) ∧ ¬((3/5 + 3/5 : ℚ) / 2 < 9/20) := by
  refine ⟨by decide, by decide, by decide, by decide⟩

/-! ## Claim C4: untrained ensemble -/

/-- An untrained ensemble state (the inference function is irrelevant:
it sits behind the guard). -/
def untrainedState : MLState :=
  ⟨false, fun _ _ => ⟨"Unknown", "Unknown", 0, 0, [], []⟩⟩

/-- C4 counterexample: with `is_trained = false`, `predict_complexity`
raises `ValueError` to its caller instead of reporting an
`Unknown`/0.0 estimate. -/
theorem claim_C4_cex :
    predictComplexity untrainedState "x" Lang.python =
      Except.error "Models not trained. Call train_models() first." ∧
    (predictComplexity untrainedState "x" Lang.python).toOption = none := by
  exact ⟨rfl, rfl⟩

/-- C4 (amended): the untrained ensemble raises `ValueError` from
`predict_complexity`; it is the hybrid caller that avoids guessing — the
exception is caught (and the call skipped when ML is disabled), so
arbitration receives no ensemble estimate and returns the rule-based
branch. -/
theorem claim_C4 (st : MLState) (mlEnabled : Bool) (rule : Verdict)
    (composite : CompFlags) (code : String) (lang : Lang) (strict : Bool)
    (h : st.is_trained = false) :
    hybridCombine st mlEnabled rule composite code lang strict =
      combineNoML rule composite := by
  cases mlEnabled <;> simp [hybridCombine, predictComplexity, h]

/-- C4 witness: the amended claim at a concrete untrained state. -/
theorem claim_C4_witness :
    untrainedState.is_trained = false ∧
    hybridCombine untrainedState true ⟨"O(n)", "O(1)", [], [], 1/2⟩ noFlags "x"
        Lang.python false =
      combineNoML ⟨"O(n)", "O(1)", [], [], 1/2⟩ noFlags :=
  ⟨rfl, claim_C4 untrainedState true ⟨"O(n)", "O(1)", [], [], 1/2⟩ noFlags "x"
    Lang.python false rfl⟩

/-! ## Claim C9: composite flags require their cue conjunction -/

/-- C9 (amended): in the generic branch of `_composite_signals`,
`binary_search` and `permutations` are set only when all of their cues
co-occur, and `merge_sort` only when its three structural cues co-occur
**or** the single substring cue `merge_sort` is present — so a single cue
can set a composite flag. -/
theorem claim_C9 (code : String) :
    ((compositeSignalsGeneric code).binary_search = true →
      isSub "while left <= right" code = true ∧ isSub "mid" code = true) ∧
    ((compositeSignalsGeneric code).permutations = true →
      reSearch (lit "swap(") code = true ∧ reSearch (lit "backtrack(") code = true) ∧
    ((compositeSignalsGeneric code).merge_sort = true →
      (isSub "def merge" code = true ∧ isSub "while i <" code = true ∧
        isSub "while j <" code = true) ∨ isSub "merge_sort" code = true) := by
  refine ⟨?_, ?_, ?_⟩ <;>
    simp only [compositeSignalsGeneric, noFlags, Bool.and_eq_true, Bool.or_eq_true] <;>
    intro h <;> tauto

/-- C9 counterexample: the input `merge_sort` sets the `merge_sort`
composite flag through the single substring cue while every structural
cue of the signature is absent. -/
theorem claim_C9_cex :
    (compositeSignalsGeneric "merge_sort").merge_sort = true ∧
    isSub "def merge" "merge_sort" = false ∧
    isSub "while i <" "merge_sort" = false ∧
    isSub "while j <" "merge_sort" = false ∧
    (compositeSignalsGeneric "merge_sort").binary_search = false ∧
    (compositeSignalsGeneric "merge_sort").permutations = false := by
  decide

/-- Concrete code containing every cue used by the C9 witness. -/
def c9Input : String := "while left <= right mid swap( backtrack( merge_sort"

/-- C9 witness: the amended claim applied at an input where all three
flags fire. -/
theorem claim_C9_witness :
    ((compositeSignalsGeneric c9Input).binary_search = true ∧
     (compositeSignalsGeneric c9Input).permutations = true ∧
     (compositeSignalsGeneric c9Input).merge_sort = true) ∧
    (isSub "while left <= right" c9Input = true ∧ isSub "mid" c9Input = true) ∧
    (reSearch (lit "swap(") c9Input = true ∧ reSearch (lit "backtrack(") c9Input = true) ∧
    ((isSub "def merge" c9Input = true ∧ isSub "while i <" c9Input = true ∧
      isSub "while j <" c9Input = true) ∨ isSub "merge_sort" c9Input = true) :=
  ⟨by decide, (claim_C9 c9Input).1 (by decide), (claim_C9 c9Input).2.1 (by decide),
   (claim_C9 c9Input).2.2 (by decide)⟩

/-! ## Claim C5: the no-ensemble arbitration branch -/

/-- C5: when the ensemble estimate is unavailable, arbitration returns
the rule-based estimate verbatim tagged `rule_based`, after first
checking guardrail corrections even in this branch; when a correction
applies the corrected classes are used, the tag is
`rule_plus_guardrail`, and the reported ensemble confidence is at least
0.55 (evidence and suggestions still pass through verbatim). -/
theorem claim_C5 (rule : Verdict) (composite : CompFlags)
    (h0 : 0 ≤ rule.confidence) :
    (guardrailCorrections composite = (none, none) →
      combineNoML rule composite =
        ⟨rule.time_complexity, rule.space_complexity, rule.breakdown,
         rule.suggestions, "rule_based", some rule.confidence, none, 0,
         rule.confidence⟩) ∧
    ((guardrailCorrections composite).1.isSome = true ∨
        (guardrailCorrections composite).2.isSome = true →
      (combineNoML rule composite).time_complexity =
        (guardrailCorrections composite).1.getD rule.time_complexity ∧
      (combineNoML rule composite).space_complexity =
        (guardrailCorrections composite).2.getD rule.space_complexity ∧
      (combineNoML rule composite).analysis_method = "rule_plus_guardrail" ∧
      11/20 ≤ (combineNoML rule composite).ensemble_confidence ∧
      (combineNoML rule composite).breakdown = rule.breakdown ∧
      (combineNoML rule composite).suggestions = rule.suggestions) := by
  constructor
  · intro h
    simp only [combineNoML, h, Option.isSome_none, Bool.or_self, Bool.false_eq_true,
      if_false, Option.getD_none]
    exact congrArg _ (max_eq_left h0)
  · intro h
    have hc : ((guardrailCorrections composite).1.isSome ||
        (guardrailCorrections composite).2.isSome) = true := by
      rcases h with h | h <;> simp [h]
    have hle : 11/20 ≤ (combineNoML rule composite).ensemble_confidence := by
      simp only [combineNoML, hc, if_true]
      exact le_max_of_le_right (by norm_num)
    refine ⟨?_, ?_, ?_, hle, ?_, ?_⟩ <;> simp [combineNoML, hc]

/-- Concrete rule estimate for the C5 witness. -/
def c5Rule : Verdict := ⟨"O(n)", "O(1)", ["rb"], ["rs"], 7/10⟩

/-- C5 witness: both parts of the claim at concrete inputs (no flags set,
then only the binary-search flag set). -/
theorem claim_C5_witness :
    (0 ≤ c5Rule.confidence ∧
      combineNoML c5Rule noFlags =
        ⟨"O(n)", "O(1)", ["rb"], ["rs"], "rule_based", some (7/10), none, 0, 7/10⟩) ∧
    ((combineNoML c5Rule bsOnlyFlags).analysis_method = "rule_plus_guardrail" ∧
      11/20 ≤ (combineNoML c5Rule bsOnlyFlags).ensemble_confidence) :=
  ⟨⟨by decide, (claim_C5 c5Rule noFlags (by decide)).1 (by decide)⟩,
   by
    have h := (claim_C5 c5Rule bsOnlyFlags (by decide)).2 (Or.inl (by decide))
    exact ⟨h.2.2.1, h.2.2.2.1⟩⟩

/-! ## Claim C2: the binary-search guardrail -/

/-- C2 (amended): with the binary-search signature the only asserted
composite flag and an ensemble estimate present, the guardrail fires when
the **arbitrated** verdict's confidence is below 0.5 (not merely when the
ensemble confidence is): the final time class is then `O(log n)`, the
method tag is `guardrail_cpp`, and the confidence is raised to at least
0.55.  (When the arbitrated confidence is at least 0.5 — e.g. the
rule-based fallback branch adopted a confident rule estimate — no
guardrail fires; see the counterexample.) -/
theorem claim_C2 (rule : Verdict) (ml : MLRes)
    (h : (determineFinalComplexity rule.time_complexity rule.space_complexity
            rule.confidence ml.time_complexity ml.space_complexity
            ml.time_confidence ml.space_confidence).confidence < 1/2) :
    (combineCore rule ml bsOnlyFlags false).time_complexity = "O(log n)" ∧
    (combineCore rule ml bsOnlyFlags false).analysis_method = "guardrail_cpp" ∧
    11/20 ≤ (combineCore rule ml bsOnlyFlags false).ensemble_confidence := by
  have hg : guardrailCorrections bsOnlyFlags = (some "O(log n)", some "O(1)") := by
    decide
  refine ⟨?_, ?_, ?_⟩ <;>
  · simp only [combineCore, Bool.false_eq_true, if_false, hg,
      Option.isSome_some, Bool.or_self, Option.getD_some]
    rw [if_pos h]
    first
    | rfl
    | exact le_max_right _ _

/-- Concrete arbitration inputs for the C2 witness. -/
def c2Rule : Verdict := ⟨"O(n)", "O(1)", [], [], 3/10⟩

def c2Ml : MLRes := ⟨"O(n)", "O(1)", 47/100, 47/100, [], []⟩

/-- C2 witness: a moderately-unconfident ensemble (average 0.47 < 0.5)
triggers the amended guardrail. -/
theorem claim_C2_witness :
    (determineFinalComplexity c2Rule.time_complexity c2Rule.space_complexity
        c2Rule.confidence c2Ml.time_complexity c2Ml.space_complexity
        c2Ml.time_confidence c2Ml.space_confidence).confidence < 1/2 ∧
    ((combineCore c2Rule c2Ml bsOnlyFlags false).time_complexity = "O(log n)" ∧
     (combineCore c2Rule c2Ml bsOnlyFlags false).analysis_method = "guardrail_cpp" ∧
     11/20 ≤ (combineCore c2Rule c2Ml bsOnlyFlags false).ensemble_confidence) :=
  ⟨by decide, claim_C2 c2Rule c2Ml (by decide)⟩

/-- C2 counterexample: the binary-search flag is asserted and the
ensemble confidence (0.4) is below 0.5 predicting `O(n)` ≠ `O(log n)`,
yet with a confident rule estimate the arbitrated verdict keeps the rule
classes at confidence 0.9, no guardrail fires, and the final time class
is `O(n²)` tagged `rule_based_fallback`. -/
theorem claim_C2_cex :
    bsOnlyFlags.binary_search = true ∧
    ((2/5 + 2/5 : ℚ) / 2) < 1/2 ∧
    (combineCore ⟨"O(n²)", "O(1)", [], [], 9/10⟩ ⟨"O(n)", "O(1)", 2/5, 2/5, [], []⟩
        bsOnlyFlags false).time_complexity = "O(n²)" ∧
    (combineCore ⟨"O(n²)", "O(1)", [], [], 9/10⟩ ⟨"O(n)", "O(1)", 2/5, 2/5, [], []⟩
        bsOnlyFlags false).analysis_method = "rule_based_fallback" ∧
    (combineCore ⟨"O(n²)", "O(1)", [], [], 9/10⟩ ⟨"O(n)", "O(1)", 2/5, 2/5, [], []⟩
        bsOnlyFlags false).time_complexity ≠ "O(log n)" := by
  decide

/-! ## Claim C3: the Unknown confidence ceiling -/

/-- With no composite flags, `_combine_analyses` reduces to the
`_determine_final_complexity` verdict. -/
theorem combineCore_noFlags (rule : Verdict) (ml : MLRes) (strict : Bool) :
    combineCore rule ml noFlags strict =
      let arb := determineFinalComplexity rule.time_complexity
        rule.space_complexity rule.confidence ml.time_complexity
        ml.space_complexity ml.time_confidence ml.space_confidence
      ⟨arb.time, arb.space, combineBreakdowns rule.breakdown ml,
       combineSuggestions rule.suggestions ml arb.time arb.space, arb.method,
       none, some rule.confidence,
       (ml.time_confidence + ml.space_confidence) / 2, arb.confidence⟩ := by
  have hg : guardrailCorrections noFlags = (none, none) := by decide
  have h1 : noFlags.binary_search = false := rfl
  have h2 : noFlags.merge_sort = false := rfl
  have h3 : noFlags.dp_triply_nested = false := rfl
  have h4 : noFlags.bubble_triangular = false := rfl
  cases strict <;>
    simp [combineCore, hg, h1, h2, h3, h4, ite_self]

/-- C3 (amended): produced from estimates whose own time classes are not
`Unknown` and with no composite flag asserted, an `Unknown`-time verdict
can only come from the `uncertain` branch and carries confidence exactly
0.4 — so at most the 0.4 ceiling.  (When the ensemble estimate itself
reports `Unknown`, the ceiling can be exceeded; see the
counterexample.) -/
theorem claim_C3 (rule : Verdict) (ml : MLRes) (strict : Bool)
    (hr : rule.time_complexity ≠ "Unknown")
    (hm : ml.time_complexity ≠ "Unknown")
    (hu : (combineCore rule ml noFlags strict).time_complexity = "Unknown") :
    (combineCore rule ml noFlags strict).ensemble_confidence ≤ 2/5 := by
  rw [combineCore_noFlags] at hu ⊢
  dsimp only at hu ⊢
  unfold determineFinalComplexity at hu ⊢
  dsimp only at hu ⊢
  split_ifs at hu ⊢ <;> simp_all

/-- C3 witness: the `uncertain` branch (both estimators weak) emits
`Unknown` at exactly the 0.4 ceiling. -/
theorem claim_C3_witness :
    (⟨"O(n)", "O(1)", [], [], 1/2⟩ : Verdict).time_complexity ≠ "Unknown" ∧
    (⟨"O(n)", "O(1)", 2/5, 2/5, [], []⟩ : MLRes).time_complexity ≠ "Unknown" ∧
    (combineCore ⟨"O(n)", "O(1)", [], [], 1/2⟩ ⟨"O(n)", "O(1)", 2/5, 2/5, [], []⟩
        noFlags false).time_complexity = "Unknown" ∧
    (combineCore ⟨"O(n)", "O(1)", [], [], 1/2⟩ ⟨"O(n)", "O(1)", 2/5, 2/5, [], []⟩
        noFlags false).ensemble_confidence ≤ 2/5 :=
  ⟨by decide, by decide, by decide,
   claim_C3 ⟨"O(n)", "O(1)", [], [], 1/2⟩ ⟨"O(n)", "O(1)", 2/5, 2/5, [], []⟩ false
     (by decide) (by decide) (by decide)⟩

/-- C3 counterexample: an ensemble estimate of `Unknown` time at per-axis
confidences 0.4/1.0 (average 0.7) makes arbitration emit a verdict with
time class `Unknown` at ensemble confidence 0.7 > 0.4, violating the
uncertainty ceiling. -/
theorem claim_C3_cex :
    (combineCore ⟨"O(n)", "O(1)", [], [], 1/2⟩ ⟨"Unknown", "O(1)", 2/5, 1, [], []⟩
        noFlags false).time_complexity = "Unknown" ∧
    2/5 < (combineCore ⟨"O(n)", "O(1)", [], [], 1/2⟩
        ⟨"Unknown", "O(1)", 2/5, 1, [], []⟩ noFlags false).ensemble_confidence := by
  decide

/-! ## Claim C10: the rule-based analyzer never answers Unknown -/

/-- Every branch of `_fallback_analysis` yields a concrete time class. -/
theorem fallback_time_ne (code : String) (lang : Lang) :
    (fallbackAnalysis code lang).time_complexity ≠ "Unknown" := by
  unfold fallbackAnalysis
  dsimp only
  split_ifs <;> simp

/-- `_fallback_analysis` always reports confidence 0.4. -/
theorem fallback_confidence (code : String) (lang : Lang) :
    (fallbackAnalysis code lang).confidence = 2/5 := rfl

/-- Every branch of `PythonASTAnalyzer.get_results` yields a concrete
time class. -/
theorem getResults_time_ne (f : AstFacts) :
    (getResults f).time_complexity ≠ "Unknown" := by
  unfold getResults
  dsimp only
  split_ifs <;> simp

/-- The priority selection of `_determine_time_complexity` cannot answer
`Unknown` when some matched pattern's label classifies. -/
theorem determineTimeComplexity_ne (results : List ComplexityPattern)
    (hne : results ≠ [])
    (hall : ∀ p ∈ results, (mapTimeClass p.time_complexity).isSome = true) :
    determineTimeComplexity results ≠ "Unknown" := by
  have hcne : results.filterMap (fun r => mapTimeClass r.time_complexity) ≠ [] := by
    cases results with
    | nil => exact absurd rfl hne
    | cons p t =>
      obtain ⟨v, hv⟩ := Option.isSome_iff_exists.mp (hall p (List.mem_cons_self p t))
      intro hnil
      have hm : v ∈ (p :: t).filterMap (fun r => mapTimeClass r.time_complexity) :=
        List.mem_filterMap.mpr ⟨p, List.mem_cons_self p t, hv⟩
      rw [hnil] at hm
      exact List.not_mem_nil v hm
  have hE : (results.filterMap (fun r => mapTimeClass r.time_complexity)).isEmpty = false := by
    simpa using hcne
  unfold determineTimeComplexity
  dsimp only
  rw [hE]
  split_ifs <;> simp_all

/-- The confidence folded by `_analyze_patterns` never drops below its
initial 0. -/
theorem le_foldl_maxConf (ps : List ComplexityPattern) :
    ∀ a : ℚ, a ≤ ps.foldl (fun x p => max x p.confidence) a := by
  induction ps with
  | nil => intro a; simp
  | cons p t ih => intro a; exact le_trans (le_max_left _ _) (ih _)

/-- `_analyze_patterns` reports a nonnegative confidence. -/
theorem analyzePatterns_conf_nonneg (code : String) (ps : List ComplexityPattern) :
    0 ≤ (analyzePatterns code ps).confidence := by
  unfold analyzePatterns
  dsimp only
  split_ifs
  · exact le_refl 0
  · exact le_foldl_maxConf _ 0

/-- If `_analyze_patterns` reports `Unknown` time, nothing matched and its
confidence is 0 (each registered label classifies, by `hall`). -/
theorem analyzePatterns_unknown (code : String) (ps : List ComplexityPattern)
    (hall : ∀ p ∈ ps, (mapTimeClass p.time_complexity).isSome = true)
    (h : (analyzePatterns code ps).time_complexity = "Unknown") :
    (analyzePatterns code ps).confidence = 0 := by
  unfold analyzePatterns at h ⊢
  dsimp only at h ⊢
  by_cases hres : (ps.filter (fun p => reSearch p.pattern code)).isEmpty = true
  · rw [if_pos hres] at h ⊢
    rfl
  · rw [if_neg hres] at h
    exfalso
    refine determineTimeComplexity_ne _ ?_ ?_ h
    · intro hnil
      rw [hnil] at hres
      exact hres rfl
    · intro p hp
      exact hall p (List.mem_of_mem_filter hp)

/-- The registered pattern tables all carry classifiable time labels. -/
theorem patternsFor_labels (lang : Lang) :
    ∀ p ∈ patternsFor lang, (mapTimeClass p.time_complexity).isSome = true := by
  cases lang <;>
    simp only [patternsFor, pythonPatterns, cppPatterns, javaPatterns,
      javascriptPatterns, List.forall_mem_cons, List.not_mem_nil,
      false_implies, implies_true, and_true, List.forall_mem_nil] <;>
    decide

/-- The common tail of `analyze`: combine, fall back on `Unknown`. -/
theorem analyze_core_ne (astRes : AnalysisOut) (code : String) (lang : Lang)
    (hast : astRes.time_complexity = "Unknown" → astRes.confidence ≤ 0) :
    (if (combineAnalysis astRes (analyzePatterns code (patternsFor lang))).time_complexity = "Unknown" then
      (if (fallbackAnalysis code lang).confidence >
          (combineAnalysis astRes (analyzePatterns code (patternsFor lang))).confidence then
        fallbackAnalysis code lang
       else combineAnalysis astRes (analyzePatterns code (patternsFor lang)))
     else combineAnalysis astRes (analyzePatterns code (patternsFor lang))).time_complexity ≠
      "Unknown" := by
  by_cases hcomb :
      (combineAnalysis astRes (analyzePatterns code (patternsFor lang))).time_complexity = "Unknown"
  · have hconf :
        (combineAnalysis astRes (analyzePatterns code (patternsFor lang))).confidence ≤ 0 := by
      unfold combineAnalysis at hcomb ⊢
      by_cases hc : astRes.confidence > (analyzePatterns code (patternsFor lang)).confidence
      · rw [if_pos hc] at hcomb ⊢
        exact hast hcomb
      · rw [if_neg hc] at hcomb ⊢
        exact (analyzePatterns_unknown code (patternsFor lang) (patternsFor_labels lang) hcomb).le
    have hlt :
        (fallbackAnalysis code lang).confidence >
          (combineAnalysis astRes (analyzePatterns code (patternsFor lang))).confidence := by
      rw [fallback_confidence]
      exact lt_of_le_of_lt hconf (by norm_num)
    rw [if_pos hcomb, if_pos hlt]
    exact fallback_time_ne code lang
  · rw [if_neg hcomb]
    exact hcomb

/-- C10: `TimeComplexityAnalyzer.analyze` never returns time class
`Unknown`: whenever the combined AST/pattern result is `Unknown` its
confidence is 0, so the heuristic fallback (confidence 0.4, every branch
a concrete class) replaces it; nothing in the embedding raises, and the
source's exception handler returns the same fallback. -/
theorem claim_C10 (lang : Lang) (parse : Option AstFacts) (code : String) :
    (backendAnalyze lang parse code).time_complexity ≠ "Unknown" := by
  cases lang with
  | python =>
    cases parse with
    | none =>
      exact analyze_core_ne unknownOut code Lang.python (fun _ => le_refl 0)
    | some f =>
      exact analyze_core_ne (getResults f) code Lang.python
        (fun h => absurd h (getResults_time_ne f))
  | cpp =>
    exact analyze_core_ne _ code Lang.cpp
      (fun h => (analyzePatterns_unknown code (patternsFor Lang.cpp)
        (patternsFor_labels Lang.cpp) h).le)
  | java =>
    exact analyze_core_ne _ code Lang.java
      (fun h => (analyzePatterns_unknown code (patternsFor Lang.java)
        (patternsFor_labels Lang.java) h).le)
  | javascript =>
    exact analyze_core_ne _ code Lang.javascript
      (fun h => (analyzePatterns_unknown code (patternsFor Lang.javascript)
        (patternsFor_labels Lang.javascript) h).le)
  | other =>
    exact analyze_core_ne _ code Lang.other
      (fun h => (analyzePatterns_unknown code (patternsFor Lang.other)
        (patternsFor_labels Lang.other) h).le)

/-! ## Claim C8: nested-loop class dominates single-loop class -/

/-- A label classified as `O(2ⁿ)` really contains the `O(2ⁿ)` token. -/
theorem mapTimeClass_exp {t : String} (h : mapTimeClass t = some "O(2ⁿ)") :
    isSub "O(2ⁿ)" t = true := by
  unfold mapTimeClass at h
  split_ifs at h <;> simp_all

/-- C8: whenever the matched patterns include a linear (`O(n)`) and a
quadratic (`O(n²)`) label, `_determine_time_complexity` never selects the
linear class; it selects exactly the quadratic class unless a pattern of
a strictly higher class (`O(2ⁿ)`) also matched — the selection takes the
maximum matched class in the priority order.  On the AST side,
`get_results` likewise maps nested loops (without recursion) to the
quadratic class. -/
theorem claim_C8 (results : List ComplexityPattern) (f : AstFacts)
    (_h1 : ∃ p ∈ results, p.time_complexity = "O(n)")
    (h2 : ∃ p ∈ results, p.time_complexity = "O(n²)")
    (hf0 : f.recursive_calls = 0) (hf1 : 0 < f.nested_loops) :
    (determineTimeComplexity results ≠ "O(n)" ∧
      ((∀ p ∈ results, isSub "O(2ⁿ)" p.time_complexity = false) →
        determineTimeComplexity results = "O(n²)")) ∧
    ((getResults f).time_complexity = "O(n²)" ∧
      (getResults f).time_complexity ≠ "O(n)") := by
  constructor
  · obtain ⟨p2, hp2, he2⟩ := h2
    have hm2 : "O(n²)" ∈ results.filterMap (fun r => mapTimeClass r.time_complexity) :=
      List.mem_filterMap.mpr ⟨p2, hp2, by rw [he2]; rfl⟩
    have hE : (results.filterMap (fun r => mapTimeClass r.time_complexity)).isEmpty = false := by
      simpa using List.ne_nil_of_mem hm2
    have hmm2 : memS "O(n²)" (results.filterMap (fun r => mapTimeClass r.time_complexity)) = true :=
      List.any_eq_true.mpr ⟨"O(n²)", hm2, by decide⟩
    unfold determineTimeComplexity
    dsimp only
    rw [hE]
    constructor
    · split_ifs <;> simp_all
    · intro hno
      have hexp : memS "O(2ⁿ)" (results.filterMap (fun r => mapTimeClass r.time_complexity)) = false := by
        rw [memS]
        rw [List.any_eq_false]
        intro x hx
        obtain ⟨p, hp, hpv⟩ := List.mem_filterMap.mp hx
        intro hxe
        have hxe' : x = "O(2ⁿ)" := by simpa using hxe
        rw [hxe'] at hpv
        exact absurd (mapTimeClass_exp hpv) (by simp [hno p hp])
      simp only [Bool.false_eq_true, if_false, hexp, hmm2, if_true]
  · unfold getResults
    dsimp only
    rw [hf0]
    rw [if_neg (by norm_num : ¬ (0:Nat) < 0), if_pos hf1]
    exact ⟨rfl, by simp⟩

/-- Concrete matched-pattern list for the C8 witness (a linear and a
quadratic signature; the structural matcher fields are irrelevant to
selection). -/
def c8List : List ComplexityPattern :=
  [⟨RE.eps, "O(n)", "O(1)", "Single loop with range", 9/10⟩,
   ⟨RE.eps, "O(n²)", "O(1)", "Nested loops", 95/100⟩]

/-- C8 witness: both labels matched, nothing higher — the quadratic class
is selected, never the linear one; AST facts with a nested loop agree. -/
theorem claim_C8_witness :
    ((∃ p ∈ c8List, p.time_complexity = "O(n)") ∧
     (∃ p ∈ c8List, p.time_complexity = "O(n²)") ∧
     (⟨2, 1, 0⟩ : AstFacts).recursive_calls = 0 ∧ 0 < (⟨2, 1, 0⟩ : AstFacts).nested_loops) ∧
    determineTimeComplexity c8List ≠ "O(n)" ∧
    determineTimeComplexity c8List = "O(n²)" ∧
    (getResults ⟨2, 1, 0⟩).time_complexity = "O(n²)" := by
  have hex1 : ∃ p ∈ c8List, p.time_complexity = "O(n)" :=
    ⟨_, List.mem_cons_self _ _, rfl⟩
  have hex2 : ∃ p ∈ c8List, p.time_complexity = "O(n²)" :=
    ⟨_, List.mem_cons_of_mem _ (List.mem_cons_self _ _), rfl⟩
  have hall : ∀ p ∈ c8List, isSub "O(2ⁿ)" p.time_complexity = false := by
    intro p hp
    rcases List.mem_cons.mp hp with h | h
    · rw [h]; decide
    · rw [List.mem_singleton.mp h]; decide
  have h := claim_C8 c8List ⟨2, 1, 0⟩ hex1 hex2 rfl (by decide)
  exact ⟨⟨hex1, hex2, rfl, by decide⟩, h.1.1, h.1.2 hall, h.2.1⟩

/-! ## Claims C6 and C7: degradation and trivial inputs -/

/-- When no registered pattern matches, `_analyze_patterns` reports the
`Unknown` result at confidence 0. -/
theorem analyzePatterns_no_match (code : String) (ps : List ComplexityPattern)
    (hp : ps.all (fun p => !reSearch p.pattern code) = true) :
    analyzePatterns code ps = unknownOut := by
  have hfil : ps.filter (fun p => reSearch p.pattern code) = [] := by
    rw [List.filter_eq_nil_iff]
    intro p hmem
    have := List.all_eq_true.mp hp p hmem
    simp only [Bool.not_eq_true'] at this
    simp [this]
  unfold analyzePatterns
  dsimp only
  rw [hfil]
  rfl

/-- `combineAnalysis` of two `Unknown` results is `Unknown`. -/
theorem combineAnalysis_unknown :
    combineAnalysis unknownOut unknownOut = unknownOut := by
  unfold combineAnalysis
  rw [if_neg (lt_irrefl _)]

/-- The heuristic fallback on trivial code: no `for`/`while` occurrences
and no recursion cue give time `O(1)`, with space `O(1)` unless the
data-structure token heuristic fires, in which case space is `O(n)`. -/
theorem fallback_trivial (code : String) (lang : Lang)
    (hfor : countS code "for" = 0) (hwhile : countS code "while" = 0)
    (hrec : fallbackHasRecursion code = false) :
    (fallbackAnalysis code lang).time_complexity = "O(1)" ∧
    (fallbackAnalysis code lang).space_complexity =
      (if fallbackHasDataStructures code then "O(n)" else "O(1)") := by
  have hnest : fallbackHasNestedLoops code = false := by
    unfold fallbackHasNestedLoops
    rw [hfor, hwhile]
    simp
  unfold fallbackAnalysis
  dsimp only
  rw [hfor, hwhile, hrec, hnest]
  simp only [Bool.false_eq_true, if_false, lt_irrefl, decide_False, Bool.or_self]
  by_cases hds : fallbackHasDataStructures code = true
  · rw [if_pos hds, if_pos hds]
    exact ⟨rfl, rfl⟩
  · rw [if_neg hds, if_neg hds]
    exact ⟨rfl, rfl⟩

/-- C6 (amended): with CPython's parser failing on the input, the
embedded `analyze` (which is total: nothing raises) still yields a
Verdict; when additionally no pattern matches, the fallback result is
returned with confidence exactly 0.4 ≤ 0.4 and a concrete time class —
but its evidence is exactly the fallback's heuristic breakdown, which
does not record the parse failure (see the counterexample). -/
theorem claim_C6 (code : String)
    (hp : pythonPatterns.all (fun p => !reSearch p.pattern code) = true) :
    (backendAnalyze Lang.python none code).confidence = 2/5 ∧
    (backendAnalyze Lang.python none code).breakdown =
      (fallbackAnalysis code Lang.python).breakdown ∧
    (backendAnalyze Lang.python none code).time_complexity ≠ "Unknown" := by
  have hpat2 : analyzePatterns code (patternsFor Lang.python) = unknownOut :=
    analyzePatterns_no_match code pythonPatterns hp
  have hgt : (fallbackAnalysis code Lang.python).confidence > unknownOut.confidence := by
    rw [fallback_confidence]
    norm_num [unknownOut]
  have key : backendAnalyze Lang.python none code =
      ⟨(fallbackAnalysis code Lang.python).time_complexity,
       (fallbackAnalysis code Lang.python).space_complexity,
       (fallbackAnalysis code Lang.python).breakdown,
       generateSuggestions (fallbackAnalysis code Lang.python) code Lang.python,
       (fallbackAnalysis code Lang.python).confidence⟩ := by
    unfold backendAnalyze
    dsimp only
    rw [hpat2, combineAnalysis_unknown]
    rw [if_pos (show unknownOut.time_complexity = "Unknown" from rfl), if_pos hgt]
  rw [key]
  exact ⟨fallback_confidence code Lang.python, rfl, fallback_time_ne code Lang.python⟩

/-- C6 witness: a syntactically invalid input (`:::`) that matches no
pattern. -/
theorem claim_C6_witness :
    pythonPatterns.all (fun p => !reSearch p.pattern ":::") = true ∧
    ((backendAnalyze Lang.python none ":::").confidence = 2/5 ∧
     (backendAnalyze Lang.python none ":::").breakdown =
       (fallbackAnalysis ":::" Lang.python).breakdown ∧
     (backendAnalyze Lang.python none ":::").time_complexity ≠ "Unknown") :=
  ⟨by decide, claim_C6 ":::" (by decide)⟩

/-- C6 counterexample: on the unparseable input `:::` the Verdict's
evidence (breakdown) is only the fallback's heuristic observation — no
entry records the parse failure or the degradation, contradicting the
claim's "recorded in the evidence". -/
theorem claim_C6_cex :
    (backendAnalyze Lang.python none ":::").breakdown.any mentionsDegradation = false ∧
    (backendAnalyze Lang.python none ":::").breakdown =
      ["No loops or data structures detected"] ∧
    (backendAnalyze Lang.python none ":::").confidence = 2/5 := by
  decide

/-- C7 (amended): trivial code (no loops, no recursion, no matching
signatures) analyzes to `O(1)` time and `O(1)` space for parseable
Python; for the other languages the time class is `O(1)` but the space
class is `O(1)` only when the fallback's data-structure token heuristic
(`array`, `list`, `vector`, `[]`, `map`, `dict`, `hash`, braces, `set`,
`hashset` as substrings) does not fire — otherwise space is `O(n)` (see
the counterexample). -/
theorem claim_C7 (code : String) :
    (pythonPatterns.all (fun p => !reSearch p.pattern code) = true →
      (backendAnalyze Lang.python (some ⟨0, 0, 0⟩) code).time_complexity = "O(1)" ∧
      (backendAnalyze Lang.python (some ⟨0, 0, 0⟩) code).space_complexity = "O(1)") ∧
    (∀ lang : Lang, lang ≠ Lang.python →
      (patternsFor lang).all (fun p => !reSearch p.pattern code) = true →
      countS code "for" = 0 → countS code "while" = 0 →
      fallbackHasRecursion code = false →
      (backendAnalyze lang none code).time_complexity = "O(1)" ∧
      (backendAnalyze lang none code).space_complexity =
        (if fallbackHasDataStructures code then "O(n)" else "O(1)")) := by
  constructor
  · intro hp
    have hpat2 : analyzePatterns code (patternsFor Lang.python) = unknownOut :=
      analyzePatterns_no_match code pythonPatterns hp
    have hcomb : combineAnalysis (getResults ⟨0, 0, 0⟩) unknownOut = getResults ⟨0, 0, 0⟩ := by
      decide
    unfold backendAnalyze
    dsimp only
    rw [hpat2, hcomb]
    rw [if_neg (show ¬(getResults ⟨0, 0, 0⟩).time_complexity = "Unknown" by decide)]
    exact ⟨by decide, by decide⟩
  · intro lang hlang hp hfor hwhile hrec
    have hpat2 : analyzePatterns code (patternsFor lang) = unknownOut :=
      analyzePatterns_no_match code (patternsFor lang) hp
    have hgt : (fallbackAnalysis code lang).confidence > unknownOut.confidence := by
      rw [fallback_confidence]
      norm_num [unknownOut]
    have hfb := fallback_trivial code lang hfor hwhile hrec
    have key : backendAnalyze lang none code =
        ⟨(fallbackAnalysis code lang).time_complexity,
         (fallbackAnalysis code lang).space_complexity,
         (fallbackAnalysis code lang).breakdown,
         generateSuggestions (fallbackAnalysis code lang) code lang,
         (fallbackAnalysis code lang).confidence⟩ := by
      cases lang with
      | python => exact absurd rfl hlang
      | cpp =>
        unfold backendAnalyze
        dsimp only
        rw [hpat2, combineAnalysis_unknown]
        rw [if_pos (show unknownOut.time_complexity = "Unknown" from rfl), if_pos hgt]
      | java =>
        unfold backendAnalyze
        dsimp only
        rw [hpat2, combineAnalysis_unknown]
        rw [if_pos (show unknownOut.time_complexity = "Unknown" from rfl), if_pos hgt]
      | javascript =>
        unfold backendAnalyze
        dsimp only
        rw [hpat2, combineAnalysis_unknown]
        rw [if_pos (show unknownOut.time_complexity = "Unknown" from rfl), if_pos hgt]
      | other =>
        unfold backendAnalyze
        dsimp only
        rw [hpat2, combineAnalysis_unknown]
        rw [if_pos (show unknownOut.time_complexity = "Unknown" from rfl), if_pos hgt]
    rw [key]
    exact hfb

/-- C7 witness: trivial Python (`pass`, parsed, zero counts) yields
`O(1)`/`O(1)`; trivial C++ without data-structure tokens (`x = 1`)
likewise. -/
theorem claim_C7_witness :
    (pythonPatterns.all (fun p => !reSearch p.pattern "pass") = true ∧
     (backendAnalyze Lang.python (some ⟨0, 0, 0⟩) "pass").time_complexity = "O(1)" ∧
     (backendAnalyze Lang.python (some ⟨0, 0, 0⟩) "pass").space_complexity = "O(1)") ∧
    (cppPatterns.all (fun p => !reSearch p.pattern "x = 1") = true ∧
     countS "x = 1" "for" = 0 ∧ countS "x = 1" "while" = 0 ∧
     fallbackHasRecursion "x = 1" = false ∧
     (backendAnalyze Lang.cpp none "x = 1").time_complexity = "O(1)" ∧
     (backendAnalyze Lang.cpp none "x = 1").space_complexity = "O(1)") := by
  refine ⟨⟨by decide, (claim_C7 "pass").1 (by decide)⟩,
          ⟨by decide, by decide, by decide, by decide, ?_, ?_⟩⟩
  · exact ((claim_C7 "x = 1").2 Lang.cpp (by decide) (by decide) (by decide)
      (by decide) (by decide)).1
  · have h := ((claim_C7 "x = 1").2 Lang.cpp (by decide) (by decide) (by decide)
      (by decide) (by decide)).2
    rw [h]
    decide

/-- C7 counterexample: `int main() {}` is trivial C++ — no loops, no
recursion, no matching signature — yet `analyze` reports space `O(n)`
(the fallback's `{}` data-structure token fires), not the claimed
`O(1)`. -/
theorem claim_C7_cex :
    countS "int main() \x7b\x7d" "for" = 0 ∧
    countS "int main() \x7b\x7d" "while" = 0 ∧
    fallbackHasRecursion "int main() \x7b\x7d" = false ∧
    cppPatterns.all (fun p => !reSearch p.pattern "int main() \x7b\x7d") = true ∧
    (backendAnalyze Lang.cpp none "int main() \x7b\x7d").time_complexity = "O(1)" ∧
    (backendAnalyze Lang.cpp none "int main() \x7b\x7d").space_complexity = "O(n)" := by
  decide

end TCE
